import Mathlib

/-!
Verification of the natural-language specification of `docs/serve-docs.py`,
the SwissPipe API documentation server launcher, against the script itself.

The script is a linear program: parse an optional port argument with `int()`
(default 8080), `os.chdir` to the directory containing the script, update the
request handler's `extensions_map` with YAML content types, bind a
`socketserver.TCPServer` on `("", port)`, print a status banner, best-effort
open a browser, and `serve_forever()` until `KeyboardInterrupt`.

The embedding has three parts:
* `pyInt` — CPython's `int(str)` surface grammar restricted to ASCII
  (optional surrounding whitespace, optional sign, decimal digits with
  single underscores between digits);
* the MIME table — `SimpleHTTPRequestHandler.extensions_map` (CPython's
  default compressed-types table) updated with the two entries from
  serve-docs.py lines 34-37, consulted before the stdlib `mimetypes`
  defaults, exactly as `SimpleHTTPRequestHandler.guess_type` does;
* `pyMain` — the body of `main()` as a function from the argument vector and
  an environment (script directory, whether the bind succeeds, whether
  `webbrowser.open` raises) to a trace of observable events plus the process
  exit status.  `serve_forever` is modelled up to the delivery of the
  terminating `KeyboardInterrupt`, which is the only way the loop ends.
-/

namespace ServeDocs

/-- ASCII whitespace characters that CPython's `int(str)` strips from both
ends of its argument before parsing. -/
def isPyWs (c : Char) : Bool :=
  c = ' ' || c = '\t' || c = '\n' || c = '\r' || c = '\x0b' || c = '\x0c'

/-- Strip leading and trailing whitespace, as `int(str)` does. -/
def stripWs (cs : List Char) : List Char :=
  ((cs.dropWhile isPyWs).reverse.dropWhile isPyWs).reverse

/-- Decimal digit run with single underscores allowed only between digits,
per CPython's integer-string grammar.  `prev` records whether the previous
character was a digit; the run must be nonempty and must end in a digit. -/
def pyDigits : List Char → Nat → Bool → Option Nat
  | [], acc, prev => if prev then some acc else none
  | c :: rest, acc, prev =>
    if c.isDigit then pyDigits rest (acc * 10 + (c.toNat - 48)) true
    else if c = '_' then (if prev then pyDigits rest acc false else none)
    else none

/-- Model of CPython `int(s)` on ASCII strings: strip whitespace, optional
single sign, then digits with underscores.  `none` models `ValueError`. -/
def pyInt (s : String) : Option Int :=
  match stripWs s.data with
  | '+' :: rest => (pyDigits rest 0 false).map (fun n => (n : Int))
  | '-' :: rest => (pyDigits rest 0 false).map (fun n => -(n : Int))
  | cs => (pyDigits cs 0 false).map (fun n => (n : Int))

/-- Default `SimpleHTTPRequestHandler.extensions_map` in CPython (3.9+):
only encoding overrides; everything else falls through to `mimetypes`. -/
def extensions_map_default : List (String × String) :=
  [(".gz", "application/gzip"), (".Z", "application/octet-stream"),
   (".bz2", "application/x-bzip2"), (".xz", "application/x-xz")]

/-- The entries added by `handler.extensions_map.update({...})` at
serve-docs.py lines 34-37. -/
def yaml_overrides : List (String × String) :=
  [(".yaml", "text/yaml"), (".yml", "text/yaml")]

/-- Lookup in a dict built by `base.update(upd)`: keys of `upd` shadow those
of `base`, all other keys of `base` are kept. -/
def dictLookup (base upd : List (String × String)) (k : String) : Option String :=
  (upd.lookup k).orElse (fun _ => base.lookup k)

/-- Fragment of the stdlib `mimetypes` default table (the platform defaults
used by `mimetypes.guess_type`; keys are lower-case). -/
def mimetypes_table : List (String × String) :=
  [(".html", "text/html"), (".htm", "text/html"), (".css", "text/css"),
   (".js", "text/javascript"), (".json", "application/json"),
   (".txt", "text/plain"), (".png", "image/png"), (".svg", "image/svg+xml")]

/-- Lower-case an extension, as `guess_type` does for its second lookup. -/
def toLowerExt (ext : String) : String := String.mk (ext.data.map Char.toLower)

/-- Resolution of an extension to a content type against a given
extension table, following `SimpleHTTPRequestHandler.guess_type`: exact
lookup, then lower-cased lookup, then the `mimetypes` defaults, then
`application/octet-stream`. -/
def table_lookup (tbl : String → Option String) (ext : String) : String :=
  match tbl ext with
  | some t => t
  | none =>
    match tbl (toLowerExt ext) with
    | some t => t
    | none => (mimetypes_table.lookup (toLowerExt ext)).getD "application/octet-stream"

/-- `guess_type` behaviour of the handler class before serve-docs.py runs its
`extensions_map.update` (the server's standard default mapping). -/
def default_guess (ext : String) : String :=
  table_lookup (fun k => extensions_map_default.lookup k) ext

/-- `guess_type` behaviour of the handler after the update at
serve-docs.py lines 34-37. -/
def guess_type (ext : String) : String :=
  table_lookup (dictLookup extensions_map_default yaml_overrides) ext

/-- Index of the last occurrence of `c` in `cs`, or `-1` when absent, as in
Python `str.rfind`. -/
def rfind (cs : List Char) (c : Char) : Int :=
  match cs.reverse.findIdx? (fun x => x == c) with
  | some i => (cs.length : Int) - 1 - (i : Int)
  | none => -1

/-- Extension component of `posixpath.splitext p`: the suffix from the last
dot, provided that dot lies after the last path separator and the basename
has a character other than a dot before it (leading dots never start an
extension). -/
def splitext_ext (p : String) : String :=
  let cs := p.data
  let sepIndex := rfind cs '/'
  let dotIndex := rfind cs '.'
  if sepIndex < dotIndex then
    let name := (cs.drop (sepIndex + 1).toNat).take (dotIndex.toNat - (sepIndex + 1).toNat)
    if name.any (fun c => c != '.') then String.mk (cs.drop dotIndex.toNat) else ""
  else ""

/-- Content type the running server attaches to a GET of `path`. -/
def serve_content_type (path : String) : String :=
  guess_type (splitext_ext path)

/-- Observable events of a run of `main()`, in program order. -/
inductive Event where
  | print (msg : String)
  | chdir (dir : String)
  | mimeUpdate
  | bind (port : Int)
  | openBrowser (url : String)
  | serveForever
  | serverClose
deriving DecidableEq, Repr

/-- Environment a run of the script executes in.  `scriptDir` models
`Path(__file__).parent`; `initialCwd` is the working directory at invocation
(which `main` never reads); `bindOk` tells whether
`socketserver.TCPServer(("", port), handler)` succeeds; `browserExc` is
`some e` when `webbrowser.open` raises an `Exception` rendered as `e`. -/
structure Env where
  scriptDir : String
  initialCwd : String
  bindOk : Bool
  browserExc : Option String
deriving DecidableEq, Repr

/-- Outcome of a run: the event trace and the process exit status. -/
structure Result where
  trace : List Event
  exitCode : Int
deriving DecidableEq, Repr

/-- The documentation URL printed and opened, `f"http://localhost:{port}/api-documentation.html"`. -/
def docUrl (port : Int) : String :=
  "http://localhost:" ++ toString port ++ "/api-documentation.html"

/-- serve-docs.py lines 28-58: everything after the port has been determined.
`os.chdir`, the `extensions_map.update`, the `TCPServer` bind; when the bind
succeeds, the banner prints, the browser attempt (with its `except Exception`
warning path), and `serve_forever()` until `KeyboardInterrupt`, followed by
the farewell print and the `with`-block `server_close()`.  When the bind
raises, the exception propagates uncaught and the interpreter exits with
status 1 before any further statement runs. -/
def runServer (port : Int) (env : Env) : Result :=
  let pre := [Event.chdir env.scriptDir, Event.mimeUpdate, Event.bind port]
  if env.bindOk then
    let banner :=
      [Event.print "🚀 SwissPipe API Documentation Server",
       Event.print ("📡 Serving at: http://localhost:" ++ toString port),
       Event.print ("📚 Documentation: " ++ docUrl port),
       Event.print ("📋 OpenAPI Spec: http://localhost:" ++ toString port ++ "/openapi.yaml"),
       Event.print "⏹️  Press Ctrl+C to stop the server",
       Event.print ""]
    let browser :=
      Event.print ("🌐 Opening documentation in browser: " ++ docUrl port) ::
      Event.openBrowser (docUrl port) ::
      (match env.browserExc with
       | none => []
       | some e => [Event.print ("Could not open browser automatically: " ++ e)])
    let shutdown :=
      [Event.serveForever,
       Event.print "\n👋 Server stopped. Thanks for using SwissPipe API docs!",
       Event.serverClose]
    ⟨pre ++ banner ++ browser ++ shutdown, 0⟩
  else
    ⟨pre, 1⟩

/-- serve-docs.py `main()`: port 8080 by default; when `sys.argv[1]` exists it
is parsed with `int`, and a `ValueError` prints the error message and calls
`sys.exit(1)` before anything else happens. -/
def pyMain (argv : List String) (env : Env) : Result :=
  match argv with
  | _ :: a1 :: _ =>
    match pyInt a1 with
    | none => ⟨[Event.print "Error: Port must be a valid integer"], 1⟩
    | some port => runServer port env
  | _ => runServer 8080 env

/-- A user-visible output action: a print or a browser launch. -/
def isOutput : Event → Bool
  | Event.print _ => true
  | Event.openBrowser _ => true
  | _ => false

/-- A concrete environment where the bind succeeds and the browser opens. -/
def env0 : Env :=
  { scriptDir := "docs", initialCwd := "/workspace", bindOk := true, browserExc := none }

/-- A concrete environment where the bind fails. -/
def envBindFail : Env :=
  { scriptDir := "docs", initialCwd := "/workspace", bindOk := false, browserExc := none }

/-- A concrete environment where `webbrowser.open` raises. -/
def envBrowserFail : Env :=
  { scriptDir := "docs", initialCwd := "/workspace", bindOk := true,
    browserExc := some "could not locate runnable browser" }

/-- Whatever the bind outcome, the trace of the post-parse phase starts with
the `os.chdir`, the MIME update, and the bind attempt, in that order. -/
lemma runServer_trace_shape (p : Int) (env : Env) :
    ∃ t, (runServer p env).trace
      = Event.chdir env.scriptDir :: Event.mimeUpdate :: Event.bind p :: t := by
  unfold runServer
  cases hb : env.bindOk
  · exact ⟨[], rfl⟩
  · exact ⟨_, rfl⟩

/-- When the first argument parses, `main` runs the post-parse phase on the
parsed value. -/
lemma pyMain_parse_ok (a0 s : String) (env : Env) (p : Int) (h : pyInt s = some p) :
    pyMain [a0, s] env = runServer p env := by
  simp [pyMain, h]

/-- `main` never reads the working directory the process was started in. -/
lemma runServer_cwd_independent (p : Int) (env : Env) (c : String) :
    runServer p { env with initialCwd := c } = runServer p env := by
  cases env with
  | mk d ic b be => cases b <;> cases be <;> rfl

/-- `pyMain` never reads the working directory the process was started in. -/
lemma pyMain_cwd_independent (argv : List String) (env : Env) (c : String) :
    pyMain argv { env with initialCwd := c } = pyMain argv env := by
  match argv with
  | [] => exact runServer_cwd_independent 8080 env c
  | [a0] => exact runServer_cwd_independent 8080 env c
  | a0 :: a1 :: rest =>
    cases hpi : pyInt a1 with
    | none => simp [pyMain, hpi]
    | some port => simpa [pyMain, hpi] using runServer_cwd_independent port env c

/-- A string other than ".yaml" and ".yml" misses the update dictionary. -/
lemma yaml_overrides_lookup_eq_none (k : String) (h1 : k ≠ ".yaml") (h2 : k ≠ ".yml") :
    yaml_overrides.lookup k = none := by
  have b1 : (k == ".yaml") = false := beq_eq_false_iff_ne.mpr h1
  have b2 : (k == ".yml") = false := beq_eq_false_iff_ne.mpr h2
  simp [yaml_overrides, List.lookup, b1, b2]

/-- C1: a first argument that `int` rejects makes the program print
"Error: Port must be a valid integer", exit with status 1, and produce no
bind event at all: the exit happens before any bind attempt. -/
theorem invalid_port_exits_before_bind (a0 s : String) (env : Env)
    (h : pyInt s = none) :
    pyMain [a0, s] env = ⟨[Event.print "Error: Port must be a valid integer"], 1⟩
    ∧ ("Port must be a valid integer").data <:+: ("Error: Port must be a valid integer").data
    ∧ ∀ q : Int, Event.bind q ∉ (pyMain [a0, s] env).trace := by
  refine ⟨by simp [pyMain, h], ⟨("Error: ").data, [], by decide⟩, ?_⟩
  intro q
  simp [pyMain, h]

/-- Witness for C1 at the concrete non-integer argument "not-a-port". -/
theorem invalid_port_exits_before_bind_witness :
    pyInt "not-a-port" = none
    ∧ (pyMain ["serve-docs.py", "not-a-port"] env0
        = ⟨[Event.print "Error: Port must be a valid integer"], 1⟩
      ∧ ("Port must be a valid integer").data <:+: ("Error: Port must be a valid integer").data
      ∧ ∀ q : Int, Event.bind q ∉ (pyMain ["serve-docs.py", "not-a-port"] env0).trace) :=
  ⟨by decide, invalid_port_exits_before_bind "serve-docs.py" "not-a-port" env0 (by decide)⟩

/-- C2: a first argument that `int` accepts reaches the bind attempt with
exactly the parsed value, whatever that value is: no range check sits
between parsing and the bind. -/
theorem valid_port_reaches_bind (a0 s : String) (env : Env) (p : Int)
    (h : pyInt s = some p) :
    ∃ t, (pyMain [a0, s] env).trace
      = Event.chdir env.scriptDir :: Event.mimeUpdate :: Event.bind p :: t := by
  rw [pyMain_parse_ok a0 s env p h]
  exact runServer_trace_shape p env

/-- Witness for C2 at the out-of-range concrete argument "70000". -/
theorem valid_port_reaches_bind_witness :
    pyInt "70000" = some 70000
    ∧ ∃ t, (pyMain ["serve-docs.py", "70000"] env0).trace
        = Event.chdir env0.scriptDir :: Event.mimeUpdate :: Event.bind 70000 :: t :=
  ⟨by decide, valid_port_reaches_bind "serve-docs.py" "70000" env0 70000 (by decide)⟩

/-- C6: with no command-line argument the bind attempt is on port 8080. -/
theorem default_port_8080 (a0 : String) (env : Env) :
    ∃ t, (pyMain [a0] env).trace
      = Event.chdir env.scriptDir :: Event.mimeUpdate :: Event.bind 8080 :: t :=
  runServer_trace_shape 8080 env

/-- C9: the accepted port strings are exactly those CPython's `int` accepts,
which is strictly broader than decimal-digit-only strings: surrounding
whitespace, an explicit sign, and underscores between digits all parse, and
each such argument reaches the bind with value 8080. -/
theorem pyInt_accepts_python_grammar :
    pyInt " 8080 " = some 8080 ∧ pyInt "+8080" = some 8080 ∧ pyInt "8_080" = some 8080
    ∧ (" 8080 ").data.all Char.isDigit = false
    ∧ ("+8080").data.all Char.isDigit = false
    ∧ ("8_080").data.all Char.isDigit = false
    ∧ Event.bind 8080 ∈ (pyMain ["serve-docs.py", " 8080 "] env0).trace
    ∧ Event.bind 8080 ∈ (pyMain ["serve-docs.py", "+8080"] env0).trace
    ∧ Event.bind 8080 ∈ (pyMain ["serve-docs.py", "8_080"] env0).trace := by
  decide

/-- C3 counterexample: the non-positive arguments "0" and "-5" are not
treated as invalid input.  With "0" the parse succeeds, no error message is
printed, the bind attempt on port 0 happens (and on Linux binding port 0
succeeds, so the run exits 0 after a normal shutdown); "-5" likewise passes
parsing and reaches the bind unchanged. -/
theorem nonpositive_port_not_rejected_cex :
    pyInt "0" = some 0 ∧ pyInt "-5" = some (-5)
    ∧ (pyMain ["serve-docs.py", "0"] env0).exitCode = 0
    ∧ Event.bind 0 ∈ (pyMain ["serve-docs.py", "0"] env0).trace
    ∧ Event.print "Error: Port must be a valid integer"
        ∉ (pyMain ["serve-docs.py", "0"] env0).trace
    ∧ Event.bind (-5) ∈ (pyMain ["serve-docs.py", "-5"] env0).trace := by
  decide

/-- C3 amended: the port argument is validated only for integer
parseability, not positivity: a first argument with a non-positive integer
value passes parsing without the fatal parse error and reaches the bind
attempt unchanged; any failure for such a port is a bind-time runtime
failure, not input validation. -/
theorem nonpositive_port_reaches_bind (a0 s : String) (env : Env) (p : Int)
    (h : pyInt s = some p) (_hp : p ≤ 0) :
    Event.bind p ∈ (pyMain [a0, s] env).trace
    ∧ pyMain [a0, s] env ≠ ⟨[Event.print "Error: Port must be a valid integer"], 1⟩ := by
  obtain ⟨t, ht⟩ := runServer_trace_shape p env
  rw [pyMain_parse_ok a0 s env p h]
  constructor
  · rw [ht]
    simp
  · intro hEq
    have h2 := congrArg Result.trace hEq
    rw [ht] at h2
    simp at h2

/-- Witness for the amended C3 at the concrete argument "-5". -/
theorem nonpositive_port_reaches_bind_witness :
    pyInt "-5" = some (-5) ∧ (-5 : Int) ≤ 0
    ∧ (Event.bind (-5) ∈ (pyMain ["serve-docs.py", "-5"] env0).trace
      ∧ pyMain ["serve-docs.py", "-5"] env0
          ≠ ⟨[Event.print "Error: Port must be a valid integer"], 1⟩) :=
  ⟨by decide, by decide,
    nonpositive_port_reaches_bind "serve-docs.py" "-5" env0 (-5) (by decide) (by decide)⟩

/-- C4: after the update, the handler's table resolves .yaml and .yml to
text/yaml; every extension other than those two (up to the handler's
lower-casing step) resolves exactly as the standard default table does,
.html in particular to text/html; and a GET of /openapi.yaml is served with
content type text/yaml. -/
theorem mime_override_table (ext : String)
    (h1 : toLowerExt ext ≠ ".yaml") (h2 : toLowerExt ext ≠ ".yml") :
    guess_type ".yaml" = "text/yaml" ∧ guess_type ".yml" = "text/yaml"
    ∧ guess_type ".html" = "text/html" ∧ guess_type ".html" = default_guess ".html"
    ∧ serve_content_type "/openapi.yaml" = "text/yaml"
    ∧ guess_type ext = default_guess ext := by
  refine ⟨by decide, by decide, by decide, by decide, by decide, ?_⟩
  have e1 : ext ≠ ".yaml" := by
    intro hEq
    subst hEq
    exact h1 (by decide)
  have e2 : ext ≠ ".yml" := by
    intro hEq
    subst hEq
    exact h2 (by decide)
  have k1 : dictLookup extensions_map_default yaml_overrides ext
      = extensions_map_default.lookup ext := by
    simp [dictLookup, yaml_overrides_lookup_eq_none ext e1 e2]
  have k2 : dictLookup extensions_map_default yaml_overrides (toLowerExt ext)
      = extensions_map_default.lookup (toLowerExt ext) := by
    simp [dictLookup, yaml_overrides_lookup_eq_none (toLowerExt ext) h1 h2]
  simp only [guess_type, default_guess, table_lookup, k1, k2]

/-- Witness for C4 at the concrete extension ".png". -/
theorem mime_override_table_witness :
    toLowerExt ".png" ≠ ".yaml" ∧ toLowerExt ".png" ≠ ".yml"
    ∧ (guess_type ".yaml" = "text/yaml" ∧ guess_type ".yml" = "text/yaml"
      ∧ guess_type ".html" = "text/html" ∧ guess_type ".html" = default_guess ".html"
      ∧ serve_content_type "/openapi.yaml" = "text/yaml"
      ∧ guess_type ".png" = default_guess ".png") :=
  ⟨by decide, by decide, mime_override_table ".png" (by decide) (by decide)⟩

/-- C5: the post-parse phase begins by changing the working directory to the
directory containing the script, before the server is created (the bind) and
before anything is served; and the whole of `main` is insensitive to the
working directory the process was invoked from. -/
theorem content_root_is_script_dir (argv : List String) (env : Env) (c : String) (p : Int) :
    (∃ t, (runServer p env).trace
        = Event.chdir env.scriptDir :: Event.mimeUpdate :: Event.bind p :: t)
    ∧ pyMain argv { env with initialCwd := c } = pyMain argv env :=
  ⟨runServer_trace_shape p env, pyMain_cwd_independent argv env c⟩

/-- C7: when the bind succeeded and `webbrowser.open` raises, the exception
is caught, the warning naming it is printed, and the run still reaches
`serve_forever` and exits with status 0. -/
theorem browser_failure_nonfatal (p : Int) (env : Env) (e : String)
    (hb : env.bindOk = true) (he : env.browserExc = some e) :
    Event.openBrowser (docUrl p) ∈ (runServer p env).trace
    ∧ Event.print ("Could not open browser automatically: " ++ e) ∈ (runServer p env).trace
    ∧ Event.serveForever ∈ (runServer p env).trace
    ∧ (runServer p env).exitCode = 0 := by
  simp [runServer, hb, he]

/-- Witness for C7 at port 8080 in an environment whose browser launch raises. -/
theorem browser_failure_nonfatal_witness :
    envBrowserFail.bindOk = true
    ∧ envBrowserFail.browserExc = some "could not locate runnable browser"
    ∧ (Event.openBrowser (docUrl 8080) ∈ (runServer 8080 envBrowserFail).trace
      ∧ Event.print ("Could not open browser automatically: "
          ++ "could not locate runnable browser") ∈ (runServer 8080 envBrowserFail).trace
      ∧ Event.serveForever ∈ (runServer 8080 envBrowserFail).trace
      ∧ (runServer 8080 envBrowserFail).exitCode = 0) :=
  ⟨rfl, rfl,
    browser_failure_nonfatal 8080 envBrowserFail "could not locate runnable browser" rfl rfl⟩

/-- C8: when the server started, the trace ends with `serve_forever` being
interrupted, the farewell print, and the `server_close` from the `with`
block, and the process exits with status 0. -/
theorem interrupt_clean_shutdown (p : Int) (env : Env) (hb : env.bindOk = true) :
    ∃ t, (runServer p env).trace
        = t ++ [Event.serveForever,
                Event.print "\n👋 Server stopped. Thanks for using SwissPipe API docs!",
                Event.serverClose]
      ∧ (runServer p env).exitCode = 0 := by
  unfold runServer
  rw [hb]
  exact ⟨_, rfl, rfl⟩

/-- Witness for C8 at port 8080 in the successful-bind environment. -/
theorem interrupt_clean_shutdown_witness :
    env0.bindOk = true
    ∧ ∃ t, (runServer 8080 env0).trace
        = t ++ [Event.serveForever,
                Event.print "\n👋 Server stopped. Thanks for using SwissPipe API docs!",
                Event.serverClose]
      ∧ (runServer 8080 env0).exitCode = 0 :=
  ⟨rfl, interrupt_clean_shutdown 8080 env0 rfl⟩

/-- C10: once the argument parses, the bind attempt strictly precedes every
user-visible output: when the bind succeeds, the trace splits as an
output-free prefix, the bind, and the rest; when the bind raises, the whole
trace is output-free (no banner, no browser launch) and the process exits
with status 1. -/
theorem bind_precedes_output (a0 s : String) (env : Env) (p : Int)
    (h : pyInt s = some p) :
    (env.bindOk = true →
      ∃ t1 t2, (pyMain [a0, s] env).trace = t1 ++ Event.bind p :: t2
        ∧ ∀ e2 ∈ t1, isOutput e2 = false)
    ∧ (env.bindOk = false →
      (∀ e2 ∈ (pyMain [a0, s] env).trace, isOutput e2 = false)
      ∧ (pyMain [a0, s] env).exitCode = 1) := by
  rw [pyMain_parse_ok a0 s env p h]
  constructor
  · intro hb
    unfold runServer
    rw [hb]
    refine ⟨[Event.chdir env.scriptDir, Event.mimeUpdate], _, rfl, ?_⟩
    simp [isOutput]
  · intro hb
    unfold runServer
    rw [hb]
    refine ⟨?_, rfl⟩
    simp [isOutput]

/-- Witness for C10 at the concrete argument "8080". -/
theorem bind_precedes_output_witness :
    pyInt "8080" = some 8080
    ∧ ((env0.bindOk = true →
        ∃ t1 t2, (pyMain ["serve-docs.py", "8080"] env0).trace
            = t1 ++ Event.bind 8080 :: t2
          ∧ ∀ e2 ∈ t1, isOutput e2 = false)
      ∧ (env0.bindOk = false →
        (∀ e2 ∈ (pyMain ["serve-docs.py", "8080"] env0).trace, isOutput e2 = false)
        ∧ (pyMain ["serve-docs.py", "8080"] env0).exitCode = 1)) :=
  ⟨by decide, bind_precedes_output "serve-docs.py" "8080" env0 8080 (by decide)⟩

end ServeDocs
